import Mathlib

/-!
# Verification of the sghi-ml-pipeline ETL core

A shallow embedding, in Lean 4, of the core data model and operations of the
`sghi-ml-pipeline` repository:

* the stage interfaces and their disposal guard
  (`src/sghi/ml_pipeline/domain.py`, `sghi.disposable.not_disposed`),
* the concrete stages and composite aggregators
  (`lib/common/data_sources.py`, `lib/common/data_sinks.py`,
  `lib/common/data_processors.py`),
* the workflow builder and descriptor
  (`lib/common/workflow_builder.py`, `lib/common/workflow_descriptors.py`),
* the execution engine (`runtime/usecases/run_workflow.py`), and
* the CLI error/exit-code boundary (`runtime/__main__.py`,
  `runtime/usecases/__init__.py`).

Python exceptions are modelled with `Except`; the boolean `_is_disposed`
flags are explicit state; the external `ConcurrentExecutor` collaborator is
modelled with an explicit completion schedule so that ordering properties
can be stated independently of thread interleaving.
-/

deriving instance DecidableEq for Except

namespace SghiMlPipeline

/-- The error taxonomy of the pipeline core.  `resourceDisposed` models
`sghi.disposable.ResourceDisposedError`; `stageError` models an arbitrary
exception raised inside a stage's user callable (distinguished by a code);
`configError` models `ValueError`/`ConfigurationError` raised by `attrs`
validators and `sghi.utils.ensure_*` helpers. -/
inductive Err : Type where
  | resourceDisposed : Err
  | stageError : Nat → Err
  | configError : String → Err
deriving DecidableEq, Repr

/-- The human-readable message of an error, as produced by Python's
`str(exp)` on the exception (used by `RunWorkflow.execute` when building the
`ETLWorkflowFailed` signal). -/
def Err.message : Err → String
  | .resourceDisposed => "Resource already disposed."
  | .stageError n => s!"stage error {n}"
  | .configError m => m

/-! ## The concurrent executor collaborator

Modelled from the spec: `sghi.task.ConcurrentExecutor` is an external
collaborator ("accepts N independent zero/one-argument operations, runs them
in parallel, returns N per-operation outcomes (value or failure) without the
call site manually joining threads; itself disposable").  We model a batch
execution by an explicit *schedule*: the list of task indices in the order
the worker pool happens to complete them.  Each completion writes the task's
outcome into the future slot of that task's submission index.  A schedule in
which every submitted task completes is `completeSchedule`. -/

/-- One completion event: task `i` finishes and its (pure) outcome
`outcomes[i]` is stored in future slot `i`.  Slots are `none` until their
task completes. -/
def completeTask (outcomes : List α) (acc : List (Option α)) (i : Nat) :
    List (Option α) :=
  match outcomes[i]? with
  | some v => acc.set i (some v)
  | none => acc

/-- Run a batch of pure task outcomes under a completion schedule: future
slot `i` receives `outcomes[i]` once `i` occurs in the schedule. -/
def runWithSchedule (outcomes : List α) (sched : List Nat) :
    List (Option α) :=
  sched.foldl (completeTask outcomes) (List.replicate outcomes.length none)

/-- A schedule under which every one of `n` submitted tasks completes —
the executor waits for the whole batch. -/
def completeSchedule (sched : List Nat) (n : Nat) : Bool :=
  (List.range n).all (fun i => sched.contains i)

/-! ## Member stages

A member data source models a repository `DataSource` implementation such as
`_DataSourceOfCallable` (`lib/common/data_sources.py`): a behavior — the
outcome of the wrapped callable — plus the `_is_disposed` flag.  `draw` and
`__enter__` are decorated `@not_disposed` in the source, so both fail with
`ResourceDisposedError` on a disposed instance; `dispose` just sets the
flag. -/

structure MemberSource (α : Type) where
  behavior : Except Err α
  isDisposed : Bool

/-- Guarded `draw`: `@not_disposed`, then run the wrapped callable. -/
def MemberSource.draw (m : MemberSource α) : Except Err α :=
  if m.isDisposed then .error .resourceDisposed else m.behavior

/-- Guarded `__enter__` (used by `ExitStack.enter_context`). -/
def MemberSource.enter (m : MemberSource α) : Except Err Unit :=
  if m.isDisposed then .error .resourceDisposed else .ok ()

/-- `dispose`: sets the flag; safe to call repeatedly. -/
def MemberSource.dispose (m : MemberSource α) : MemberSource α :=
  { m with isDisposed := true }

/-- A member data sink, modelling a repository `DataSink` implementation
such as `_DataSinkOfCallable` (`lib/common/data_sinks.py`), with guarded
`drain`/`__call__`. -/
structure MemberSink (β : Type) where
  behavior : β → Except Err Unit
  isDisposed : Bool

def MemberSink.drain (m : MemberSink β) (v : β) : Except Err Unit :=
  if m.isDisposed then .error .resourceDisposed else m.behavior v

def MemberSink.dispose (m : MemberSink β) : MemberSink β :=
  { m with isDisposed := true }

/-! ## FanInDataSource (`lib/common/data_sources.py`) -/

/-- `FanInDataSource` state: the member sources (copied into a tuple at
construction), the `_is_disposed` flag, and the disposal state of the
internal `ConcurrentExecutor`.  The `ExitStack` is empty between calls
(`draw` closes it on exit), so it carries no extra state here. -/
structure FanInDataSource (α : Type) where
  dataSources : List (MemberSource α)
  isDisposed : Bool
  executorDisposed : Bool

/-- Construction: the `attrs` validator `validators.min_len(1)` rejects an
empty member sequence. -/
def FanInDataSource.create (ds : List (MemberSource α)) :
    Except Err (FanInDataSource α) :=
  if ds.isEmpty then
    .error (.configError "Length of 'data_sources' must be >= 1.")
  else
    .ok { dataSources := ds, isDisposed := false, executorDisposed := false }

/-- `dispose`: sets `_is_disposed`, closes the (empty) `ExitStack`, and
disposes the internal executor.  Member sources are *not* disposed here —
only the stack close would dispose them, and between draws the stack holds
nothing. -/
def FanInDataSource.dispose (s : FanInDataSource α) : FanInDataSource α :=
  { s with isDisposed := true, executorDisposed := true }

/-- Entering every member source into the `ExitStack` in registration
order: the first already-disposed member makes its guarded `__enter__`
raise. -/
def enterMembers : List (MemberSource α) → Except Err Unit
  | [] => .ok ()
  | m :: rest =>
      if m.isDisposed then .error .resourceDisposed else enterMembers rest

/-- Member states after the `with` block unwinds following a failed
`enter_context`: members entered before the failing one were registered on
the stack and are disposed by the unwind; the failing member and those
after it are untouched. -/
def unwindEntered : List (MemberSource α) → List (MemberSource α)
  | [] => []
  | m :: rest =>
      if m.isDisposed then m :: rest
      else m.dispose :: unwindEntered rest

/-- `[future.result() for future in filter(future_succeeded, futures)]`:
keep, in order, only the values of futures that completed successfully;
failed futures are silently dropped. -/
def collectSucceeded (futures : List (Option (Except Err α))) : List α :=
  futures.filterMap fun f =>
    match f with
    | some (.ok v) => some v
    | _ => none

/-- `FanInDataSource.draw`, under a completion schedule `sched` for the
internal executor.  Mirrors the source: the `@not_disposed` guard, then
inside `with self._exit_stack:` every member is entered, the executor is
entered and run (one task per member, each task calling the member's
guarded `draw`), and on block exit the stack disposes the executor and all
members.  Returns the draw outcome together with the successor state. -/
def FanInDataSource.draw (s : FanInDataSource α) (sched : List Nat) :
    Except Err (List α) × FanInDataSource α :=
  if s.isDisposed then (.error .resourceDisposed, s)
  else
    match enterMembers s.dataSources with
    | .error e =>
        (.error e, { s with dataSources := unwindEntered s.dataSources })
    | .ok () =>
        if s.executorDisposed then
          (.error .resourceDisposed,
            { s with dataSources := s.dataSources.map MemberSource.dispose })
        else
          (.ok (collectSucceeded
              (runWithSchedule (s.dataSources.map MemberSource.draw) sched)),
            { s with
                dataSources := s.dataSources.map MemberSource.dispose,
                executorDisposed := true })

/-! ## FanOutDataSink (`lib/common/data_sinks.py`) -/

structure FanOutDataSink (β : Type) where
  dataSinks : List (MemberSink β)
  isDisposed : Bool
  executorDisposed : Bool

/-- Construction: `validators.min_len(1)` rejects an empty sink sequence. -/
def FanOutDataSink.create (ks : List (MemberSink β)) :
    Except Err (FanOutDataSink β) :=
  if ks.isEmpty then
    .error (.configError "Length of 'data_sinks' must be >= 1.")
  else
    .ok { dataSinks := ks, isDisposed := false, executorDisposed := false }

def FanOutDataSink.dispose (s : FanOutDataSink β) : FanOutDataSink β :=
  { s with isDisposed := true, executorDisposed := true }

/-- `FanOutDataSink.drain` — the source has *no* `@not_disposed` decorator
on `drain` itself.  The `with self._exit_stack:` block is empty (`drain`
never enters anything into the stack), and the call goes straight to the
internal `ConcurrentExecutor`.  Modelled from the spec: the external
executor honours the resource lifecycle contract, so its guarded call
raises `ResourceDisposedError` once it has been disposed.  The returned
futures are discarded, so member sink failures are never surfaced, and the
sinks are not disposed by `drain`. -/
def FanOutDataSink.drain (s : FanOutDataSink β) (v : β) (sched : List Nat) :
    Except Err Unit × FanOutDataSink β :=
  if s.executorDisposed then (.error .resourceDisposed, s)
  else
    let _futures :=
      runWithSchedule (s.dataSinks.map fun m => m.drain v) sched
    (.ok (), s)

/-- `FanOutDataSink.__call__` *is* guarded with `@not_disposed` before
delegating to `drain`. -/
def FanOutDataSink.callOp (s : FanOutDataSink β) (v : β) (sched : List Nat) :
    Except Err Unit × FanOutDataSink β :=
  if s.isDisposed then (.error .resourceDisposed, s) else s.drain v sched

/-! ## Data processors (`lib/common/data_processors.py`) -/

/-- `NoOpDataProcessor`: returns its input unchanged; `process` and
`__call__` are both guarded with `@not_disposed`. -/
structure NoOpDataProcessor where
  isDisposed : Bool
deriving DecidableEq, Repr

def NoOpDataProcessor.process (p : NoOpDataProcessor) (v : γ) :
    Except Err γ :=
  if p.isDisposed then .error .resourceDisposed else .ok v

def NoOpDataProcessor.dispose (_p : NoOpDataProcessor) : NoOpDataProcessor :=
  { isDisposed := true }

/-- `_DataProcessorOfCallable`: wraps a callable as a `DataProcessor`. -/
structure DataProcessorOfCallable (γ δ : Type) where
  callable : γ → δ
  isDisposed : Bool

/-- `_DataProcessorOfCallable.__call__` is guarded with `@not_disposed` and
delegates to `process`. -/
def DataProcessorOfCallable.callOp (p : DataProcessorOfCallable γ δ)
    (v : γ) : Except Err δ :=
  if p.isDisposed then .error .resourceDisposed else .ok (p.callable v)

/-- `_DataProcessorOfCallable.process` carries *no* `@not_disposed`
decorator in the source (unlike every sibling main operation): it logs and
invokes the callable unconditionally, even on a disposed instance. -/
def DataProcessorOfCallable.process (p : DataProcessorOfCallable γ δ)
    (v : γ) : Except Err δ :=
  .ok (p.callable v)

def DataProcessorOfCallable.dispose (p : DataProcessorOfCallable γ δ) :
    DataProcessorOfCallable γ δ :=
  { p with isDisposed := true }

/-- `NullDataSink`: discards the processed data it receives; `drain` and
`__call__` are guarded with `@not_disposed`. -/
structure NullDataSink where
  isDisposed : Bool
deriving DecidableEq, Repr

def NullDataSink.drain (s : NullDataSink) (_v : γ) : Except Err Unit :=
  if s.isDisposed then .error .resourceDisposed else .ok ()

def NullDataSink.dispose (_s : NullDataSink) : NullDataSink :=
  { isDisposed := true }

/-! ## Workflow builder and descriptor
(`lib/common/workflow_builder.py`, `lib/common/workflow_descriptors.py`)

The builder is polymorphic in the types of the registered suppliers `σ`,
processors `π` and consumers `κ`, exactly as the Python class is generic;
the four strategy factories are plain function fields with the same
signatures as their Python counterparts. -/

structure SimpleWorkflowDescriptor (σ π κ : Type) where
  id : String
  name : String
  description : Option String
  dataSupplier : σ
  dataProcessor : π
  dataConsumer : κ
deriving DecidableEq, Repr

structure WorkflowBuilder (σ π κ : Type) where
  id : String
  name : String
  description : Option String
  dataSuppliers : List σ
  dataProcessors : List π
  dataConsumers : List κ
  defaultProcessorFactory : Unit → π
  defaultConsumerFactory : Unit → κ
  compositeSupplierFactory : List σ → σ
  compositeConsumerFactory : List κ → κ

/-- `WorkflowBuilder._build_supplier`: zero registered sources fail
(`ensure_not_none_nor_empty`), one is used directly, two or more are passed
to the composite-supplier factory. -/
def WorkflowBuilder.buildSupplier (b : WorkflowBuilder σ π κ) :
    Except Err σ :=
  match b.dataSuppliers with
  | [] => .error (.configError "A 'data_supplier' MUST be provided.")
  | [s] => .ok s
  | ss => .ok (b.compositeSupplierFactory ss)

/-- `WorkflowBuilder._build_consumer`: zero registered sinks fall back to
the default-consumer factory, one is used directly, two or more are passed
to the composite-consumer factory. -/
def WorkflowBuilder.buildConsumer (b : WorkflowBuilder σ π κ) : κ :=
  match b.dataConsumers with
  | [] => b.defaultConsumerFactory ()
  | [k] => k
  | ks => b.compositeConsumerFactory ks

/-- `WorkflowBuilder.build`: resolves the supplier (which can fail), then
stamps a `SimpleWorkflowDescriptor` whose data processor is always a fresh
instance from the default-processor factory — the registered
`_data_processors` list is never consulted. -/
def WorkflowBuilder.build (b : WorkflowBuilder σ π κ) :
    Except Err (SimpleWorkflowDescriptor σ π κ) :=
  match b.buildSupplier with
  | .error e => .error e
  | .ok sup =>
      .ok { id := b.id, name := b.name, description := b.description,
            dataSupplier := sup,
            dataProcessor := b.defaultProcessorFactory (),
            dataConsumer := b.buildConsumer }

/-- A first-order representation of `DataSource` instances for the builder
claims: distinct atoms stand for distinct registered source instances and
`fanIn` stands for an application of the `FanInDataSource` constructor (the
default composite-supplier factory). -/
inductive SupplierRepr : Type where
  | atom : Nat → SupplierRepr
  | fanIn : List SupplierRepr → SupplierRepr

/-! ## Execution engine (`runtime/usecases/run_workflow.py`)

`RunWorkflow.execute` publishes signals on the global dispatcher and
`_run_etl_workflow` acquires the three stages on an `ExitStack` before
running `pipe(lambda _: extractor(), transformer, loader)(None)`.  The run
is modelled as a trace of observable actions (published events and stage
acquisitions) plus the final outcome and disposal flags. -/

structure WorkflowRef where
  id : String
  name : String
deriving DecidableEq, Repr

/-- The lifecycle signals the engine publishes
(`runtime/signals.py`: `StartingETLWorkflow`, `CompletedETLWorkflow`,
`ETLWorkflowFailed` with its message and originating error). -/
inductive EngineEvent : Type where
  | starting : WorkflowRef → EngineEvent
  | completed : WorkflowRef → EngineEvent
  | failed : WorkflowRef → String → Err → EngineEvent
deriving DecidableEq, Repr

inductive StageName : Type where
  | extractor : StageName
  | transformer : StageName
  | loader : StageName
deriving DecidableEq, Repr

/-- One observable engine action: an event sent on the dispatcher, or a
successful scoped acquisition (`ExitStack.enter_context`) of a stage. -/
inductive TraceItem : Type where
  | publish : EngineEvent → TraceItem
  | acquire : StageName → TraceItem
deriving DecidableEq, Repr

/-- A stage as the engine sees it: its behavior when invoked (not
disposed), plus its `_is_disposed` flag.  `__enter__` and `__call__` are
guarded by `@not_disposed`. -/
structure StageModel (γ δ : Type) where
  run : γ → Except Err δ
  isDisposed : Bool

/-- Guarded invocation of a stage (`__call__` behind `@not_disposed`). -/
def StageModel.callOp (st : StageModel γ δ) (v : γ) : Except Err δ :=
  if st.isDisposed then .error .resourceDisposed else st.run v

structure ETLWorkflow (γ δ : Type) where
  id : String
  name : String
  extractor : StageModel Unit γ
  transformer : StageModel γ δ
  loader : StageModel δ Unit

def ETLWorkflow.ref (wf : ETLWorkflow γ δ) : WorkflowRef :=
  { id := wf.id, name := wf.name }

/-- `pipe(lambda _: extractor(), transformer, loader)(None)`: extract,
transform, load in strict sequence, propagating the first error. -/
def ETLWorkflow.pipeRun (wf : ETLWorkflow γ δ) : Except Err Unit := do
  let e ← wf.extractor.callOp ()
  let t ← wf.transformer.callOp e
  wf.loader.callOp t

structure RunOutcome where
  trace : List TraceItem
  result : Except Err Unit
  extractorDisposed : Bool
  transformerDisposed : Bool
  loaderDisposed : Bool
deriving DecidableEq, Repr

/-- `RunWorkflow._run_etl_workflow`: inside `with self._workflow_stack:`
the extractor, transformer and loader are entered in that order (each
guarded `__enter__` can raise `ResourceDisposedError`), then the pipeline
runs; when the block exits — normally or exceptionally — the stack disposes
every stage it had entered. -/
def ETLWorkflow.runEtl (wf : ETLWorkflow γ δ) : RunOutcome :=
  if wf.extractor.isDisposed then
    { trace := [], result := .error .resourceDisposed,
      extractorDisposed := true,
      transformerDisposed := wf.transformer.isDisposed,
      loaderDisposed := wf.loader.isDisposed }
  else if wf.transformer.isDisposed then
    { trace := [.acquire .extractor], result := .error .resourceDisposed,
      extractorDisposed := true, transformerDisposed := true,
      loaderDisposed := wf.loader.isDisposed }
  else if wf.loader.isDisposed then
    { trace := [.acquire .extractor, .acquire .transformer],
      result := .error .resourceDisposed,
      extractorDisposed := true, transformerDisposed := true,
      loaderDisposed := true }
  else
    { trace := [.acquire .extractor, .acquire .transformer,
        .acquire .loader],
      result := wf.pipeRun,
      extractorDisposed := true, transformerDisposed := true,
      loaderDisposed := true }

/-- `RunWorkflow.execute`: send `StartingETLWorkflow`, run
`_run_etl_workflow`, and send `CompletedETLWorkflow` on success; on any
exception send `ETLWorkflowFailed` (with the workflow, `str(exp)` and the
exception itself) and re-raise. -/
def ETLWorkflow.execute (wf : ETLWorkflow γ δ) : RunOutcome :=
  let etl := wf.runEtl
  match etl.result with
  | .ok () =>
      { etl with
          trace := .publish (.starting wf.ref) ::
            (etl.trace ++ [.publish (.completed wf.ref)]),
          result := .ok () }
  | .error err =>
      { etl with
          trace := .publish (.starting wf.ref) ::
            (etl.trace ++ [.publish (.failed wf.ref err.message err)]),
          result := .error err }

/-! ## CLI boundary (`runtime/__main__.py`, `runtime/usecases/__init__.py`) -/

/-- The exception classes observable at the CLI boundary. -/
inductive AppException : Type where
  | loadConfigError : String → AppException
  | configurationError : String → AppException
  | noSuchWorkflows : List String → AppException
  | otherError : String → AppException
deriving DecidableEq, Repr

inductive ConfigureOutcome : Type where
  | exited : Nat → ConfigureOutcome
  | completed : ConfigureOutcome
  | raised : AppException → ConfigureOutcome
deriving DecidableEq, Repr

/-- `_configure_runtime`: catches `LoadConfigError` (then `sys.exit(2)`)
and `ConfigurationError` (then `sys.exit(3)`); any other exception
propagates to the caller. -/
def configureRuntime (outcome : Except AppException Unit) :
    ConfigureOutcome :=
  match outcome with
  | .ok () => .completed
  | .error (.loadConfigError _) => .exited 2
  | .error (.configurationError _) => .exited 3
  | .error e => .raised e

/-- `sghi.ml_pipeline.runtime.usecases.run`: `list_workflows()` loads the
known workflow ids (and may itself raise); a non-empty selection whose set
difference against the known ids is non-empty raises
`NoSuchWorkflowsError`; otherwise the selected `RunWorkflow` tasks are
submitted to `execute_concurrently`, whose futures — including per-workflow
failures — are not re-raised here. -/
def usecasesRun (loadOutcome : Except AppException (List String))
    (select : Option (List String)) : Except AppException Unit :=
  match loadOutcome with
  | .error e => .error e
  | .ok known =>
      match select with
      | none => .ok ()
      | some sel =>
          if sel.isEmpty then .ok ()
          else if (sel.filter fun i => !known.contains i).isEmpty then
            .ok ()
          else
            .error (.noSuchWorkflows (sel.filter fun i => !known.contains i))

/-- The `run` click command: `try: ... usecases.run(...) ... except
Exception: sys.exit(5)`.  `none` models a normal (status 0) exit. -/
def runCommandExit (loadOutcome : Except AppException (List String))
    (select : Option (List String)) : Option Nat :=
  match usecasesRun loadOutcome select with
  | .ok () => none
  | .error _ => some 5

/-! ## Helper constructions and lemmas -/

/-- A freshly constructed member source that yields `v` when drawn (a mock
extractor in the sense of the spec's testable properties). -/
def freshSourceOf (v : α) : MemberSource α :=
  { behavior := .ok v, isDisposed := false }

/-- The `FanInDataSource` freshly built over mock extractors returning
`vs`, exactly the state produced by a successful `create`. -/
def freshFanIn (vs : List α) : FanInDataSource α :=
  { dataSources := vs.map freshSourceOf, isDisposed := false,
    executorDisposed := false }

/-- The fan-in aggregate over two member sources whose draws both raise. -/
def allFailFanIn : FanInDataSource Nat :=
  { dataSources :=
      [{ behavior := .error (.stageError 1), isDisposed := false },
       { behavior := .error (.stageError 2), isDisposed := false }],
    isDisposed := false, executorDisposed := false }

/-- The fan-out multiplexer over two member sinks whose drains both
raise. -/
def allFailFanOut : FanOutDataSink Nat :=
  { dataSinks :=
      [{ behavior := fun _ => .error (.stageError 3), isDisposed := false },
       { behavior := fun _ => .error (.stageError 4), isDisposed := false }],
    isDisposed := false, executorDisposed := false }

/-- A concrete workflow whose transformer raises `stageError 7`,
for exercising the failure path of the engine. -/
def wfC1 : ETLWorkflow Nat Nat :=
  { id := "wf-01", name := "failing demo",
    extractor := { run := fun _ => .ok 1, isDisposed := false },
    transformer :=
      { run := fun _ => .error (.stageError 7), isDisposed := false },
    loader := { run := fun _ => .ok (), isDisposed := false } }

/-- A concrete successful workflow for exercising the engine's event
ordering. -/
def wfC5 : ETLWorkflow Nat Nat :=
  { id := "wf-05", name := "ok demo",
    extractor := { run := fun _ => .ok 1, isDisposed := false },
    transformer := { run := fun n => .ok (n + 1), isDisposed := false },
    loader := { run := fun _ => .ok (), isDisposed := false } }

/-- A base builder configuration over the first-order supplier
representation, with the source's default factories
(`NoOpDataProcessor`, `NullDataSink`, `FanInDataSource`). -/
def builderBase :
    WorkflowBuilder SupplierRepr NoOpDataProcessor NullDataSink :=
  { id := "wf-04", name := "builder demo", description := none,
    dataSuppliers := [], dataProcessors := [], dataConsumers := [],
    defaultProcessorFactory := fun _ => { isDisposed := false },
    defaultConsumerFactory := fun _ => { isDisposed := false },
    compositeSupplierFactory := SupplierRepr.fanIn,
    compositeConsumerFactory := fun _ => { isDisposed := false } }

/-- `builderBase` with exactly one registered source. -/
def builderOne :
    WorkflowBuilder SupplierRepr NoOpDataProcessor NullDataSink :=
  { builderBase with dataSuppliers := [SupplierRepr.atom 1] }

/-- `builderBase` with two registered sources. -/
def builderTwo :
    WorkflowBuilder SupplierRepr NoOpDataProcessor NullDataSink :=
  { builderBase with
    dataSuppliers := [SupplierRepr.atom 1, SupplierRepr.atom 2] }

/-- The descriptor built from `builderBase` with one registered source. -/
def descriptorOne :
    SimpleWorkflowDescriptor SupplierRepr NoOpDataProcessor NullDataSink :=
  { id := "wf-04", name := "builder demo", description := none,
    dataSupplier := .atom 1, dataProcessor := { isDisposed := false },
    dataConsumer := { isDisposed := false } }

/-- A builder with a registered (already-disposed, hence distinguishable)
data processor: `build` still installs the fresh default processor. -/
def builderC9 :
    WorkflowBuilder SupplierRepr NoOpDataProcessor NullDataSink :=
  { builderBase with
    dataSuppliers := [SupplierRepr.atom 1],
    dataProcessors := [{ isDisposed := true }] }

theorem completeTask_length (outcomes : List α) (acc : List (Option α))
    (i : Nat) : (completeTask outcomes acc i).length = acc.length := by
  unfold completeTask
  cases outcomes[i]? <;> simp

theorem foldl_completeTask_length (outcomes : List α) (sched : List Nat)
    (acc : List (Option α)) :
    (sched.foldl (completeTask outcomes) acc).length = acc.length := by
  induction sched generalizing acc with
  | nil => rfl
  | cons i rest ih => simp [List.foldl_cons, ih, completeTask_length]

theorem completeTask_get_stable (outcomes : List α) (acc : List (Option α))
    (i j : Nat) (vj : α) (hv : outcomes[j]? = some vj)
    (h : acc[j]? = some (some vj)) :
    (completeTask outcomes acc i)[j]? = some (some vj) := by
  unfold completeTask
  cases hi : outcomes[i]? with
  | none => exact h
  | some v =>
    by_cases hij : i = j
    · subst hij
      rw [hi] at hv
      cases hv
      have hilen : i < acc.length := by
        obtain ⟨hlt, -⟩ := List.getElem?_eq_some.mp h
        exact hlt
      rw [List.getElem?_set_eq_of_lt _ hilen]
    · rw [List.getElem?_set_ne hij]
      exact h

theorem foldl_completeTask_stable (outcomes : List α) (sched : List Nat)
    (acc : List (Option α)) (j : Nat) (vj : α)
    (hv : outcomes[j]? = some vj) (h : acc[j]? = some (some vj)) :
    (sched.foldl (completeTask outcomes) acc)[j]? = some (some vj) := by
  induction sched generalizing acc with
  | nil => exact h
  | cons i rest ih =>
    exact ih _ (completeTask_get_stable outcomes acc i j vj hv h)

theorem foldl_completeTask_written (outcomes : List α) (sched : List Nat)
    (acc : List (Option α)) (j : Nat) (vj : α)
    (hv : outcomes[j]? = some vj) (hlen : acc.length = outcomes.length)
    (hmem : j ∈ sched) :
    (sched.foldl (completeTask outcomes) acc)[j]? = some (some vj) := by
  induction sched generalizing acc with
  | nil => cases hmem
  | cons i rest ih =>
    have hjlen : j < acc.length := by
      rw [hlen]
      obtain ⟨hlt, -⟩ := List.getElem?_eq_some.mp hv
      exact hlt
    rcases List.mem_cons.mp hmem with hji | hjr
    · subst hji
      apply foldl_completeTask_stable outcomes rest _ j vj hv
      show (completeTask outcomes acc j)[j]? = some (some vj)
      unfold completeTask
      rw [hv, List.getElem?_set_eq_of_lt _ hjlen]
    · have hlen' : (completeTask outcomes acc i).length = outcomes.length := by
        rw [completeTask_length, hlen]
      exact ih _ hlen' hjr

/-- Under a complete schedule, the rejoined futures hold exactly the task
outcomes, in submission order — completion order is irrelevant. -/
theorem runWithSchedule_complete (outcomes : List α) (sched : List Nat)
    (hs : completeSchedule sched outcomes.length = true) :
    runWithSchedule outcomes sched = outcomes.map some := by
  have hlen : (runWithSchedule outcomes sched).length = outcomes.length := by
    unfold runWithSchedule
    rw [foldl_completeTask_length, List.length_replicate]
  apply List.ext_getElem?
  intro j
  by_cases hj : j < outcomes.length
  · have hvj : outcomes[j]? = some outcomes[j] := List.getElem?_eq_getElem hj
    have hmem : j ∈ sched := by
      have := List.all_eq_true.mp hs j (List.mem_range.mpr hj)
      simpa using this
    have h1 : (runWithSchedule outcomes sched)[j]? = some (some outcomes[j]) :=
      foldl_completeTask_written outcomes sched _ j outcomes[j] hvj
        (List.length_replicate _ _) hmem
    rw [h1, List.getElem?_map, hvj]
    rfl
  · rw [List.getElem?_eq_none (hlen ▸ Nat.le_of_not_lt hj),
      List.getElem?_eq_none (by simpa using Nat.le_of_not_lt hj)]

theorem enterMembers_fresh (vs : List α) :
    enterMembers (vs.map freshSourceOf) = .ok () := by
  induction vs with
  | nil => rfl
  | cons v rest ih => simpa [enterMembers, freshSourceOf] using ih

theorem mapDraw_fresh (vs : List α) :
    (vs.map freshSourceOf).map MemberSource.draw =
      vs.map (fun v => Except.ok v) := by
  induction vs with
  | nil => rfl
  | cons v rest ih => simp [MemberSource.draw, freshSourceOf, ih]

theorem collectSucceeded_allOk (vs : List α) :
    collectSucceeded
      ((vs.map (fun v => (Except.ok v : Except Err α))).map some) = vs := by
  induction vs with
  | nil => rfl
  | cons v rest ih =>
    simp only [List.map_cons, collectSucceeded, List.filterMap_cons] at ih ⊢
    simpa using ih

/-! ## Claims -/

/-- **C3.** For every non-empty sequence of N member data sources that
return values `v1..vN`, `FanInDataSource.draw()` returns the sequence
`[v1..vN]` in member-registration order, not completion order, regardless
of how the concurrent executions are interleaved (here: for every complete
completion schedule of the internal executor). -/
theorem C3_fanin_draw_registration_order (vs : List α)
    (s : FanInDataSource α) (sched : List Nat)
    (hcreate : FanInDataSource.create (vs.map freshSourceOf) = .ok s)
    (hs : completeSchedule sched vs.length = true) :
    (s.draw sched).1 = .ok vs := by
  cases vs with
  | nil => exact absurd hcreate (by simp [FanInDataSource.create])
  | cons v rest =>
    rw [show FanInDataSource.create ((v :: rest).map freshSourceOf) =
      .ok (freshFanIn (v :: rest)) from rfl] at hcreate
    cases hcreate
    show ((freshFanIn (v :: rest)).draw sched).1 = .ok (v :: rest)
    unfold FanInDataSource.draw freshFanIn
    rw [enterMembers_fresh]
    simp only [Bool.false_eq_true, if_false, mapDraw_fresh]
    rw [runWithSchedule_complete _ _ (by simpa using hs),
      collectSucceeded_allOk]

/-- **C3 witness.** Three mock extractors returning `10, 20, 30`, with the
executor completing them in the order `2, 0, 1`: `draw` still returns
`[10, 20, 30]`. -/
theorem C3_fanin_draw_registration_order_witness :
    ((freshFanIn [10, 20, 30] : FanInDataSource Nat).draw [2, 0, 1]).1 =
      .ok [10, 20, 30] :=
  C3_fanin_draw_registration_order [10, 20, 30] _ [2, 0, 1] rfl (by decide)

/-- **C10.** A completed call to `FanInDataSource.draw()` disposes all
member sources and the internal executor (the exit stack closes on exit),
so a second call to `draw()` on the same instance fails with a
`ResourceDisposedError` raised by a member, even though the
`FanInDataSource` itself still reports `is_disposed == false`. -/
theorem C10_completed_draw_disposes_members (vs : List α)
    (s : FanInDataSource α) (sched sched' : List Nat)
    (hcreate : FanInDataSource.create (vs.map freshSourceOf) = .ok s) :
    (∃ out, (s.draw sched).1 = .ok out) ∧
    (∀ m ∈ (s.draw sched).2.dataSources, m.isDisposed = true) ∧
    (s.draw sched).2.executorDisposed = true ∧
    (s.draw sched).2.isDisposed = false ∧
    ((s.draw sched).2.draw sched').1 = .error .resourceDisposed := by
  cases vs with
  | nil => exact absurd hcreate (by simp [FanInDataSource.create])
  | cons v rest =>
    rw [show FanInDataSource.create ((v :: rest).map freshSourceOf) =
      .ok (freshFanIn (v :: rest)) from rfl] at hcreate
    cases hcreate
    have hdraw : (freshFanIn (v :: rest)).draw sched =
      (.ok (collectSucceeded
          (runWithSchedule
            (((v :: rest).map freshSourceOf).map MemberSource.draw) sched)),
        { dataSources :=
            ((v :: rest).map freshSourceOf).map MemberSource.dispose,
          isDisposed := false, executorDisposed := true }) := by
      unfold FanInDataSource.draw freshFanIn
      rw [enterMembers_fresh]
      rfl
    refine ⟨⟨_, by rw [hdraw]⟩, ?_, by rw [hdraw], by rw [hdraw], ?_⟩
    · rw [hdraw]
      intro m hm
      simp only [List.mem_map] at hm
      obtain ⟨m', -, rfl⟩ := hm
      rfl
    · rw [hdraw]
      show (FanInDataSource.draw _ sched').1 = .error .resourceDisposed
      unfold FanInDataSource.draw
      simp [enterMembers, MemberSource.dispose, freshSourceOf]

/-- **C10 witness.** One fresh member returning `5`: the first draw
completes with `[5]`, the state afterwards has the member and executor
disposed but `is_disposed` still false, and a second draw fails with
`ResourceDisposedError`. -/
theorem C10_completed_draw_disposes_members_witness :
    (∃ out, ((freshFanIn [5] : FanInDataSource Nat).draw [0]).1 = .ok out) ∧
    (∀ m ∈ ((freshFanIn [5] : FanInDataSource Nat).draw [0]).2.dataSources,
      m.isDisposed = true) ∧
    ((freshFanIn [5] : FanInDataSource Nat).draw
      [0]).2.executorDisposed = true ∧
    ((freshFanIn [5] : FanInDataSource Nat).draw [0]).2.isDisposed = false ∧
    (((freshFanIn [5] : FanInDataSource Nat).draw [0]).2.draw []).1 =
      .error .resourceDisposed :=
  C10_completed_draw_disposes_members [5] _ [0] [] rfl

/-- **C6 (code bug).** When every member fails, the aggregate does *not*
report the failure: `FanInDataSource.draw` filters failed futures out and
returns an empty list as a success, and `FanOutDataSink.drain` discards the
futures entirely and returns normally — both operations carry a
`TODO: Add error handling` comment in the source.  An aggregate with zero
members, by contrast, cannot even be constructed. -/
theorem C6_all_members_failed_silently_dropped :
    (allFailFanIn.draw [0, 1]).1 = .ok [] ∧
    (allFailFanOut.drain 42 [0, 1]).1 = .ok () ∧
    FanInDataSource.create ([] : List (MemberSource Nat)) =
      .error (.configError "Length of 'data_sources' must be >= 1.") ∧
    FanOutDataSink.create ([] : List (MemberSink Nat)) =
      .error (.configError "Length of 'data_sinks' must be >= 1.") :=
  ⟨rfl, rfl, rfl, rfl⟩

/-- **C2 (code bug).** `_DataProcessorOfCallable.process` carries no
`@not_disposed` guard (unlike the guarded `__call__` of the same class and
every sibling stage operation), so after `dispose()` a direct `process()`
call still executes the wrapped callable and returns its value instead of
failing with `ResourceDisposedError`; second disposal stays a no-op. -/
theorem C2_unguarded_process_use_after_dispose :
    ((DataProcessorOfCallable.mk Nat.succ false).dispose.process 5 =
      .ok 6) ∧
    ((DataProcessorOfCallable.mk Nat.succ false).dispose.process 5 ≠
      .error .resourceDisposed) ∧
    ((DataProcessorOfCallable.mk Nat.succ false).dispose.callOp 5 =
      .error .resourceDisposed) ∧
    ((NoOpDataProcessor.mk false).dispose.process (5 : Nat) =
      .error .resourceDisposed) ∧
    ((NullDataSink.mk false).dispose.drain (5 : Nat) =
      .error .resourceDisposed) ∧
    ((NoOpDataProcessor.mk false).dispose.dispose =
      (NoOpDataProcessor.mk false).dispose) := by
  refine ⟨rfl, ?_, rfl, rfl, rfl, rfl⟩
  decide

/-- **C1.** For every workflow run, if any exception is raised while
extracting, transforming, or loading, the engine publishes a "workflow
failed" event carrying the workflow reference, a human-readable message and
the originating error, the three stages are still disposed, no "workflow
completed" event is published, and the original error is re-raised to the
caller. -/
theorem C1_failure_event_disposal_reraise (wf : ETLWorkflow γ δ) (err : Err)
    (hE : wf.extractor.isDisposed = false)
    (hT : wf.transformer.isDisposed = false)
    (hL : wf.loader.isDisposed = false)
    (hfail : wf.pipeRun = .error err) :
    wf.execute.trace =
      [.publish (.starting wf.ref), .acquire .extractor,
       .acquire .transformer, .acquire .loader,
       .publish (.failed wf.ref err.message err)] ∧
    (∀ r, TraceItem.publish (.completed r) ∉ wf.execute.trace) ∧
    wf.execute.extractorDisposed = true ∧
    wf.execute.transformerDisposed = true ∧
    wf.execute.loaderDisposed = true ∧
    wf.execute.result = .error err := by
  have hetl : wf.runEtl =
      { trace := [.acquire .extractor, .acquire .transformer,
          .acquire .loader],
        result := .error err, extractorDisposed := true,
        transformerDisposed := true, loaderDisposed := true } := by
    unfold ETLWorkflow.runEtl
    rw [hE, hT, hL, hfail]
    rfl
  have hex : wf.execute =
      { trace := [.publish (.starting wf.ref), .acquire .extractor,
          .acquire .transformer, .acquire .loader,
          .publish (.failed wf.ref err.message err)],
        result := .error err, extractorDisposed := true,
        transformerDisposed := true, loaderDisposed := true } := by
    unfold ETLWorkflow.execute
    rw [hetl]
    rfl
  rw [hex]
  refine ⟨rfl, ?_, rfl, rfl, rfl, rfl⟩
  intro r
  simp

/-- **C1 witness.** A concrete workflow whose transformer raises
`stageError 7`: the trace is exactly starting-acquire-acquire-acquire-
failed, every stage is disposed, and the error is re-raised. -/
theorem C1_failure_event_disposal_reraise_witness :
    wfC1.execute.trace =
      [.publish (.starting wfC1.ref), .acquire .extractor,
       .acquire .transformer, .acquire .loader,
       .publish (.failed wfC1.ref (Err.stageError 7).message
          (.stageError 7))] ∧
    (∀ r, TraceItem.publish (.completed r) ∉ wfC1.execute.trace) ∧
    wfC1.execute.extractorDisposed = true ∧
    wfC1.execute.transformerDisposed = true ∧
    wfC1.execute.loaderDisposed = true ∧
    wfC1.execute.result = .error (.stageError 7) :=
  C1_failure_event_disposal_reraise wfC1 (.stageError 7) rfl rfl rfl rfl

/-- **C5 counterexample.** The claim says the engine acquires the three
stages before publishing the "workflow starting" event.  On a concrete run
the trace places the starting event at a strictly earlier position than the
acquisition of the extractor: `RunWorkflow.execute` sends
`StartingETLWorkflow` first and only then enters the stages inside
`_run_etl_workflow`. -/
theorem C5_acquisition_order_counterexample :
    wfC5.execute.trace.indexOf (.publish (.starting wfC5.ref)) <
      wfC5.execute.trace.indexOf (.acquire .extractor) ∧
    ¬ (wfC5.execute.trace.indexOf (.acquire .extractor) <
        wfC5.execute.trace.indexOf (.publish (.starting wfC5.ref))) := by
  decide

/-- **C5 (amended).** For every workflow run whose stages are acquirable,
the engine publishes the "workflow starting" event *before* acquiring any
stage, and then acquires the extractor, transformer and loader in that
order. -/
theorem C5_amended_starting_then_acquisition (wf : ETLWorkflow γ δ)
    (hE : wf.extractor.isDisposed = false)
    (hT : wf.transformer.isDisposed = false)
    (hL : wf.loader.isDisposed = false) :
    wf.execute.trace.take 4 =
      [.publish (.starting wf.ref), .acquire .extractor,
       .acquire .transformer, .acquire .loader] := by
  have hetl : wf.runEtl =
      { trace := [.acquire .extractor, .acquire .transformer,
          .acquire .loader],
        result := wf.pipeRun, extractorDisposed := true,
        transformerDisposed := true, loaderDisposed := true } := by
    unfold ETLWorkflow.runEtl
    rw [hE, hT, hL]
    rfl
  unfold ETLWorkflow.execute
  rw [hetl]
  cases wf.pipeRun with
  | ok u => cases u; rfl
  | error e => rfl

/-- **C5 amended witness.** On the concrete successful workflow the first
four trace items are starting, then the three acquisitions. -/
theorem C5_amended_starting_then_acquisition_witness :
    wfC5.execute.trace.take 4 =
      [.publish (.starting wfC5.ref), .acquire .extractor,
       .acquire .transformer, .acquire .loader] :=
  C5_amended_starting_then_acquisition wfC5 rfl rfl rfl

/-- **C4.** `WorkflowBuilder.build()` resolves sources as follows: with
zero registered sources it fails with a configuration error; with exactly
one registered source the built descriptor's data supplier is that exact
source instance (identity-preserving, no wrapping); with two or more, the
data supplier is the result of applying the composite-source factory
(`FanInDataSource` by default) to the registered sources. -/
theorem C4_supplier_resolution {π κ : Type}
    (b : WorkflowBuilder SupplierRepr π κ) :
    (b.dataSuppliers = [] →
      b.build = .error (.configError "A 'data_supplier' MUST be provided.")) ∧
    (∀ s, b.dataSuppliers = [s] →
      b.build.map (fun d => d.dataSupplier) = .ok s) ∧
    (∀ s₁ s₂ rest, b.dataSuppliers = s₁ :: s₂ :: rest →
      b.build.map (fun d => d.dataSupplier) =
        .ok (b.compositeSupplierFactory (s₁ :: s₂ :: rest)) ∧
      (b.compositeSupplierFactory = SupplierRepr.fanIn →
        b.build.map (fun d => d.dataSupplier) =
          .ok (.fanIn (s₁ :: s₂ :: rest)))) := by
  refine ⟨?_, ?_, ?_⟩
  · intro h
    unfold WorkflowBuilder.build WorkflowBuilder.buildSupplier
    rw [h]
  · intro s h
    unfold WorkflowBuilder.build WorkflowBuilder.buildSupplier
    rw [h]
    rfl
  · intro s₁ s₂ rest h
    constructor
    · unfold WorkflowBuilder.build WorkflowBuilder.buildSupplier
      rw [h]
      rfl
    · intro hfac
      unfold WorkflowBuilder.build WorkflowBuilder.buildSupplier
      rw [h, hfac]
      rfl

/-- **C4 witness.** Zero sources fail; one source `atom 1` is passed
through untouched; two sources become `fanIn [atom 1, atom 2]`. -/
theorem C4_supplier_resolution_witness :
    builderBase.build =
      .error (.configError "A 'data_supplier' MUST be provided.") ∧
    builderOne.build.map (fun d => d.dataSupplier) =
      .ok (SupplierRepr.atom 1) ∧
    builderTwo.build.map (fun d => d.dataSupplier) =
      .ok (SupplierRepr.fanIn [SupplierRepr.atom 1, SupplierRepr.atom 2]) :=
  ⟨(C4_supplier_resolution builderBase).1 rfl,
   (C4_supplier_resolution builderOne).2.1 (SupplierRepr.atom 1) rfl,
   ((C4_supplier_resolution builderTwo).2.2 (SupplierRepr.atom 1)
      (SupplierRepr.atom 2) [] rfl).2 rfl⟩

/-- **C8.** For every `WorkflowBuilder` with zero registered sinks (and the
source's default consumer factory `NullDataSink`), `build()` yields a
descriptor whose data consumer accepts any input value, discards it, and
never raises while not disposed. -/
theorem C8_zero_sinks_discarding_consumer {σ π : Type}
    (b : WorkflowBuilder σ π NullDataSink)
    (hcons : b.dataConsumers = [])
    (hfac : b.defaultConsumerFactory = fun _ => { isDisposed := false })
    (d : SimpleWorkflowDescriptor σ π NullDataSink)
    (hbuild : b.build = .ok d) :
    d.dataConsumer = { isDisposed := false } ∧
    ∀ (γ : Type) (v : γ), d.dataConsumer.drain v = .ok () := by
  have hc : b.buildConsumer = { isDisposed := false } := by
    unfold WorkflowBuilder.buildConsumer
    rw [hcons, hfac]
  have hdc : d.dataConsumer = { isDisposed := false } := by
    unfold WorkflowBuilder.build at hbuild
    cases hsup : b.buildSupplier with
    | error e =>
      rw [hsup] at hbuild
      exact absurd hbuild (by simp)
    | ok sup =>
      rw [hsup] at hbuild
      injection hbuild with hinj
      rw [← hinj, hc]
  exact ⟨hdc, fun γ v => by rw [hdc]; rfl⟩

/-- **C8 witness.** Building with one source and zero sinks yields the
fresh `NullDataSink`, whose `drain` accepts `42` and returns unit. -/
theorem C8_zero_sinks_discarding_consumer_witness :
    descriptorOne.dataConsumer = { isDisposed := false } ∧
    descriptorOne.dataConsumer.drain (42 : Nat) = .ok () :=
  ⟨(C8_zero_sinks_discarding_consumer builderOne rfl rfl
      descriptorOne rfl).1,
   (C8_zero_sinks_discarding_consumer builderOne rfl rfl
      descriptorOne rfl).2 Nat 42⟩

/-- **C9.** For every `WorkflowBuilder`, `build()` always sets the built
descriptor's data processor to a fresh instance produced by the
default-processor factory: any data processors supplied via the builder's
`data_processors` argument are never included in the built descriptor, even
when one or more were registered. -/
theorem C9_processor_always_default {σ π κ : Type}
    (b : WorkflowBuilder σ π κ) :
    (∀ d, b.build = .ok d → d.dataProcessor = b.defaultProcessorFactory ()) ∧
    (∀ ps : List π,
      ({ b with dataProcessors := ps } : WorkflowBuilder σ π κ).build =
        b.build) := by
  constructor
  · intro d hd
    unfold WorkflowBuilder.build at hd
    cases hsup : b.buildSupplier with
    | error e =>
      rw [hsup] at hd
      exact absurd hd (by simp)
    | ok sup =>
      rw [hsup] at hd
      injection hd with hinj
      rw [← hinj]
  · intro ps
    rfl

/-- **C9 witness.** With a registered processor present, the built
descriptor's processor is the default factory's fresh instance, and the
build result does not depend on the registered processors at all. -/
theorem C9_processor_always_default_witness :
    descriptorOne.dataProcessor = builderC9.defaultProcessorFactory () ∧
    ({ builderC9 with dataProcessors := [] }).build = builderC9.build :=
  ⟨(C9_processor_always_default builderC9).1 descriptorOne rfl,
   (C9_processor_always_default builderC9).2 []⟩

/-- **C7 counterexample.** The claim says the three failure classes exit
with pairwise distinct status codes.  On the code, a requested workflow id
that is not known (`NoSuchWorkflowsError`) is caught by the `run` command's
generic `except Exception` and exits with status 5 — the same status as an
unhandled run-time error. -/
theorem C7_exit_codes_counterexample :
    runCommandExit (.ok ["wf-a"]) (some ["wf-b"]) = some 5 ∧
    runCommandExit (.error (.otherError "boom")) none = some 5 ∧
    runCommandExit (.ok ["wf-a"]) (some ["wf-b"]) =
      runCommandExit (.error (.otherError "boom")) none := by
  decide

/-- **C7 (amended).** Configuration errors exit with a status distinct from
the other two classes (2 for a configuration-file load error, 3 for any
other configuration error), but an unknown-workflow error and an unhandled
run-time error share exit status 5 — those two are not distinct from each
other. -/
theorem C7_amended_exit_codes (known sel : List String)
    (e : AppException) (m₁ m₂ : String)
    (hne : sel ≠ [])
    (hmiss : sel.filter (fun i => !known.contains i) ≠ []) :
    runCommandExit (.ok known) (some sel) = some 5 ∧
    runCommandExit (.error e) none = some 5 ∧
    configureRuntime (.error (.loadConfigError m₁)) = .exited 2 ∧
    configureRuntime (.error (.configurationError m₂)) = .exited 3 := by
  refine ⟨?_, rfl, rfl, rfl⟩
  have h1 : sel.isEmpty = false := by
    cases sel with
    | nil => exact absurd rfl hne
    | cons a t => rfl
  have h2 : (sel.filter fun i => !known.contains i).isEmpty = false := by
    cases hm : sel.filter fun i => !known.contains i with
    | nil => exact absurd hm hmiss
    | cons a t => rfl
  have hu : usecasesRun (.ok known) (some sel) =
      .error (.noSuchWorkflows (sel.filter fun i => !known.contains i)) := by
    show (if sel.isEmpty = true then (Except.ok () : Except AppException Unit)
      else if (sel.filter fun i => !known.contains i).isEmpty = true then
        .ok ()
      else
        .error (.noSuchWorkflows (sel.filter fun i => !known.contains i))) =
      .error (.noSuchWorkflows (sel.filter fun i => !known.contains i))
    rw [h1, h2]
    rfl
  unfold runCommandExit
  rw [hu]

/-- **C7 amended witness.** Concrete instances of the three failure
classes and their exit statuses. -/
theorem C7_amended_exit_codes_witness :
    runCommandExit (.ok ["wf-a"]) (some ["wf-x"]) = some 5 ∧
    runCommandExit (.error (.otherError "kaboom")) none = some 5 ∧
    configureRuntime (.error (.loadConfigError "no file")) = .exited 2 ∧
    configureRuntime (.error (.configurationError "bad key")) =
      .exited 3 :=
  C7_amended_exit_codes ["wf-a"] ["wf-x"] (.otherError "kaboom")
    "no file" "bad key" (by decide) (by decide)

end SghiMlPipeline
